import Mathlib

/-!
Verification of the Foodgram backend core (recipe aggregation, shopping-cart
download, short-link generation and resolution) against its natural-language
specification.  The Python/Django source is shallowly embedded: each Django
model table becomes a list of rows in an explicit database state, each view or
serializer method becomes a pure Lean function on that state, and machine-level
behaviour (MD5 hashing, SQL constraint checks, exception propagation) is made
explicit.  Definitions are translated from the source files
backend/recipes/models.py, backend/recipes/views.py, backend/api/serializers.py
and backend/api/views.py.
-/

set_option maxRecDepth 10000

/-! ## MD5 (hashlib.md5, used by Recipe.save for short links)

A bit-faithful implementation of MD5 over byte lists, with all words kept as
naturals reduced modulo 2^32.  `md5hex` is the model of
`hashlib.md5(s.encode()).hexdigest()`.
-/

/-- UTF-8 encoding of a single code point, as byte values. -/
def utf8Bytes (c : Nat) : List Nat :=
  if c < 128 then [c]
  else if c < 2048 then [192 + c / 64, 128 + c % 64]
  else if c < 65536 then [224 + c / 4096, 128 + (c / 64) % 64, 128 + c % 64]
  else [240 + c / 262144, 128 + (c / 4096) % 64, 128 + (c / 64) % 64,
        128 + c % 64]

/-- Model of `s.encode()`: the UTF-8 bytes of a string. -/
def strBytes (s : String) : List Nat :=
  s.data.foldr (fun ch acc => utf8Bytes ch.toNat ++ acc) []

/-- Little-endian byte decomposition: `k` bytes of `n`. -/
def toLEBytes : Nat → Nat → List Nat
  | 0, _ => []
  | k + 1, n => (n % 256) :: toLEBytes k (n / 256)

/-- MD5 padding: append 0x80, zero-pad to 56 mod 64, then the original
bit length as 8 little-endian bytes. -/
def padMsg (m : List Nat) : List Nat :=
  let len := m.length
  let padLen := (120 - (len + 1) % 64) % 64
  m ++ [128] ++ List.replicate padLen 0 ++ toLEBytes 8 ((len * 8) % (2 ^ 64))

/-- The 64 MD5 round constants (floor of abs(sin(i+1)) * 2^32). -/
def md5K : List Nat := [
  3614090360, 3905402710, 606105819, 3250441966, 4118548399, 1200080426, 2821735955, 4249261313,
  1770035416, 2336552879, 4294925233, 2304563134, 1804603682, 4254626195, 2792965006, 1236535329,
  4129170786, 3225465664, 643717713, 3921069994, 3593408605, 38016083, 3634488961, 3889429448,
  568446438, 3275163606, 4107603335, 1163531501, 2850285829, 4243563512, 1735328473, 2368359562,
  4294588738, 2272392833, 1839030562, 4259657740, 2763975236, 1272893353, 4139469664, 3200236656,
  681279174, 3936430074, 3572445317, 76029189, 3654602809, 3873151461, 530742520, 3299628645,
  4096336452, 1126891415, 2878612391, 4237533241, 1700485571, 2399980690, 4293915773, 2240044497,
  1873313359, 4264355552, 2734768916, 1309151649, 4149444226, 3174756917, 718787259, 3951481745]

/-- The 64 MD5 per-round left-rotation amounts. -/
def md5S : List Nat := [
  7, 12, 17, 22, 7, 12, 17, 22,
  7, 12, 17, 22, 7, 12, 17, 22,
  5, 9, 14, 20, 5, 9, 14, 20,
  5, 9, 14, 20, 5, 9, 14, 20,
  4, 11, 16, 23, 4, 11, 16, 23,
  4, 11, 16, 23, 4, 11, 16, 23,
  6, 10, 15, 21, 6, 10, 15, 21,
  6, 10, 15, 21, 6, 10, 15, 21]

/-- 32-bit left rotation. -/
def rotl32 (x s : Nat) : Nat :=
  ((x <<< s) ||| (x >>> (32 - s))) % (2 ^ 32)

/-- One MD5 round on the working state (a, b, c, d) with message words m. -/
def md5Step (i : Nat) (st : Nat × Nat × Nat × Nat) (m : List Nat) :
    Nat × Nat × Nat × Nat :=
  let a := st.1; let b := st.2.1; let c := st.2.2.1; let d := st.2.2.2
  let mask := 4294967295
  let f :=
    if i < 16 then (b &&& c) ||| ((b ^^^ mask) &&& d)
    else if i < 32 then (d &&& b) ||| ((d ^^^ mask) &&& c)
    else if i < 48 then b ^^^ c ^^^ d
    else c ^^^ (b ||| (d ^^^ mask))
  let g :=
    if i < 16 then i
    else if i < 32 then (5 * i + 1) % 16
    else if i < 48 then (3 * i + 5) % 16
    else (7 * i) % 16
  let t := (f + a + md5K.getD i 0 + m.getD g 0) % (2 ^ 32)
  (d, (b + rotl32 t (md5S.getD i 0)) % (2 ^ 32), b, c)

/-- Run MD5 rounds i, i+1, ... for the given amount of fuel. -/
def md5Rounds (m : List Nat) : Nat → Nat → (Nat × Nat × Nat × Nat) →
    Nat × Nat × Nat × Nat
  | _, 0, st => st
  | i, fuel + 1, st => md5Rounds m (i + 1) fuel (md5Step i st m)

/-- Split the 64-byte block into 16 little-endian 32-bit words. -/
def words16 (block : List Nat) : List Nat :=
  (List.range 16).map fun j =>
    block.getD (4 * j) 0 + 256 * block.getD (4 * j + 1) 0 +
      65536 * block.getD (4 * j + 2) 0 + 16777216 * block.getD (4 * j + 3) 0

/-- Split a byte list into 64-byte chunks (fuel-based structural recursion;
the fuel is the list length, which bounds the number of chunks). -/
def chunks64Aux : Nat → List Nat → List (List Nat)
  | 0, _ => []
  | fuel + 1, l => if l.isEmpty then [] else l.take 64 :: chunks64Aux fuel (l.drop 64)

/-- Split a byte list into 64-byte chunks. -/
def chunks64 (l : List Nat) : List (List Nat) :=
  chunks64Aux l.length l

/-- Process one 64-byte block, updating the MD5 state. -/
def md5Block (st : Nat × Nat × Nat × Nat) (block : List Nat) :
    Nat × Nat × Nat × Nat :=
  let r := md5Rounds (words16 block) 0 64 st
  ((st.1 + r.1) % (2 ^ 32), (st.2.1 + r.2.1) % (2 ^ 32),
   (st.2.2.1 + r.2.2.1) % (2 ^ 32), (st.2.2.2 + r.2.2.2) % (2 ^ 32))

/-- The 16 digest bytes of MD5 applied to a byte message. -/
def md5Bytes (msg : List Nat) : List Nat :=
  let st := (chunks64 (padMsg msg)).foldl md5Block
    (1732584193, 4023233417, 2562383102, 271733878)
  toLEBytes 4 st.1 ++ toLEBytes 4 st.2.1 ++ toLEBytes 4 st.2.2.1 ++
    toLEBytes 4 st.2.2.2

/-- Lowercase hex digit for a value below 16. -/
def hexChar (n : Nat) : Char :=
  if n < 10 then Char.ofNat (48 + n) else Char.ofNat (87 + n)

/-- Two hex characters per byte, most significant nibble first. -/
def hexChars : List Nat → List Char
  | [] => []
  | b :: bs => hexChar (b / 16) :: hexChar (b % 16) :: hexChars bs

/-- Model of `hashlib.md5(s.encode()).hexdigest()`. -/
def md5hex (s : String) : String :=
  String.mk (hexChars (md5Bytes (strBytes s)))

/-! ## Data model (backend/recipes/models.py)

Each Django table is a list of rows.  `authorStr` is the Python string
rendering of the author used by `Recipe.save` in the hash input
(`User.__str__` returns first and last name).  `LineRow` models
`RecipeIngredient`; both of its foreign keys are nullable because the model
declares them `null=True` with `on_delete=SET_NULL`.
-/

structure IngredientRow where
  id : Nat
  name : String
  measurement_unit : String
deriving DecidableEq

structure RecipeRow where
  id : Nat
  authorId : Nat
  authorStr : String
  name : String
  text : String
  image : String
  cookingTime : Int
  shortLink : Option String
deriving DecidableEq

structure LineRow where
  recipe : Option Nat
  ingredient : Option Nat
  amount : Int
deriving DecidableEq

structure Db where
  recipes : List RecipeRow
  lines : List LineRow
  ingredients : List IngredientRow
  favorites : List (Nat × Nat)
  cart : List (Nat × Nat)
  recipeTags : List (Nat × Nat)
deriving DecidableEq

def emptyDb : Db := ⟨[], [], [], [], [], []⟩

/-! ## Short-link generation (Recipe.save, models.py lines 203-224) -/

/-- Python truthiness of the nullable `short_link` field: `None` and the
empty string are falsy. -/
def isFalsyLink : Option String → Bool
  | none => true
  | some s => s.data.isEmpty

/-- The candidate code computed inside `Recipe.save`:
`hashlib.md5(f"-".encode()).hexdigest()[:8]` over author and name,
i.e. the first 8 characters of the hex digest.  Slicing a Python `str`
is taking a prefix of its character list. -/
def genShortLink (author name : String) : String :=
  String.mk ((md5hex (author ++ "-" ++ name)).data.take 8)

inductive SaveErr
  | integrityError
  | validationError
deriving DecidableEq

/-- `super().save()` on an insert.  The only database constraint on the
recipes table that an insert can violate is the primary key: models.py
declares NO uniqueness constraint on `short_link` (the field is a plain
`URLField(null=True, blank=True)`), so a duplicate short link never raises
`IntegrityError`. -/
def recipeInsert (db : Db) (r : RecipeRow) : Except SaveErr Db :=
  if db.recipes.any (fun q => q.id == r.id) then .error .integrityError
  else .ok { db with recipes := db.recipes ++ [r] }

/-- The `for _ in range(5)` retry loop of `Recipe.save`.  Each iteration
recomputes the hash from the SAME author and name (the input is never
perturbed), assigns it, and attempts the insert; `IntegrityError` resets the
field and retries; exhaustion raises `ValidationError`. -/
def recipeSaveLoop (db : Db) (r : RecipeRow) : Nat → Except SaveErr Db
  | 0 => .error .validationError
  | n + 1 =>
    let cand := genShortLink r.authorStr r.name
    match recipeInsert db { r with shortLink := some cand } with
    | .ok db2 => .ok db2
    | .error _ => recipeSaveLoop db r n

/-- `Recipe.save` (insert path): generate a short link when the field is
falsy, otherwise save as-is. -/
def recipeSave (db : Db) (r : RecipeRow) : Except SaveErr Db :=
  if isFalsyLink r.shortLink then recipeSaveLoop db r 5
  else recipeInsert db r

/-! ## get-link endpoint (RecipeViewSet.get_link, api/views.py 231-246) -/

inductive GetLinkRes
  | ok (link : String)
  | notFound
  | http500
deriving DecidableEq

/-- `get_link`: 404 when the recipe does not exist; return the stored value
when `short_link` is truthy; otherwise the view calls
`recipe.save(request=request)`, which forwards the unexpected keyword
argument `request` to `Model.save` and raises `TypeError`, caught by the
broad `except Exception` and turned into a 500 response with no state
change. -/
def getLink (db : Db) (rid : Nat) : GetLinkRes × Db :=
  match db.recipes.find? (fun r => r.id == rid) with
  | none => (.notFound, db)
  | some r =>
    if isFalsyLink r.shortLink then (.http500, db)
    else (.ok (r.shortLink.getD ("")), db)

/-! ## Short-link resolution (recipes/views.py, RecipeShortLinkRedirect) -/

inductive ResolveRes
  | redirect (loc : String)
  | multipleObjectsReturned
deriving DecidableEq

/-- `Recipe.objects.get(short_link=...)`: no match raises
`ObjectDoesNotExist`, which the view catches and turns into a redirect to
/404; exactly one match redirects to the recipe detail path; more than one
match raises `MultipleObjectsReturned`, which the `except` clause does not
catch. -/
def resolveShortLink (db : Db) (code : String) : ResolveRes :=
  match db.recipes.filter (fun r => r.shortLink == some code) with
  | [] => .redirect ("/404")
  | [r] => .redirect ("api/recipes/" ++ toString r.id)
  | _ => .multipleObjectsReturned

/-- Decidable hexadecimality of a character. -/
def isHexChar (c : Char) : Bool :=
  ("0123456789abcdef").data.contains c

/-- All characters of a string are hex digits. -/
def isHexStr (s : String) : Bool :=
  s.data.all isHexChar

/-! ## Claim C3 -/

def c3r1 : RecipeRow :=
  { id := 1, authorId := 7, authorStr := "Ann Lee", name := "Soup",
    text := "recipe text", image := "img.png", cookingTime := 5,
    shortLink := none }

def c3r2 : RecipeRow := { c3r1 with id := 2 }

/-- Saving the two (distinct) recipes in sequence, as `Recipe.objects.create`
does on two create requests. -/
def c3Saved : Except SaveErr Db :=
  recipeSave emptyDb c3r1 >>= fun d => recipeSave d c3r2

def c3Db : Db :=
  match c3Saved with
  | .ok d => d
  | .error _ => emptyDb

def w7r : RecipeRow :=
  { id := 1, authorId := 4, authorStr := "A B", name := "Tea", text := "t",
    image := "i", cookingTime := 2, shortLink := some ("ab12cd34") }

def w7db : Db := { emptyDb with recipes := [w7r] }

def w9r : RecipeRow :=
  { id := 7, authorId := 4, authorStr := "A B", name := "Tea", text := "t",
    image := "i", cookingTime := 2, shortLink := some ("ab12cd34") }

def w9db : Db := { emptyDb with recipes := [w9r] }

/-! ## Derived per-user flags (api/serializers.py 140-152, models.py 138-166) -/

/-- `RecipeSerializer.get_is_favorited`: false for an anonymous requester,
otherwise `Favorite.objects.filter(author=user, recipe=obj).exists()`. -/
def get_is_favorited (db : Db) (user : Option Nat) (rid : Nat) : Bool :=
  match user with
  | none => false
  | some u => db.favorites.any (fun pq => pq.1 == u && pq.2 == rid)

/-- `RecipeSerializer.get_is_in_shopping_cart`: false for an anonymous
requester, otherwise an existence check against ShoppingCart. -/
def get_is_in_shopping_cart (db : Db) (user : Option Nat) (rid : Nat) : Bool :=
  match user with
  | none => false
  | some u => db.cart.any (fun pq => pq.1 == u && pq.2 == rid)

/-- `RecipeManager.with_user_annotations`: every recipe annotated with the
two booleans; Exists-subqueries for an authenticated user, constant False
otherwise. -/
def with_user_annotations (db : Db) (user : Option Nat) :
    List (RecipeRow × Bool × Bool) :=
  match user with
  | some u => db.recipes.map (fun r =>
      (r, db.favorites.any (fun pq => pq.1 == u && pq.2 == r.id),
        db.cart.any (fun pq => pq.1 == u && pq.2 == r.id)))
  | none => db.recipes.map (fun r => (r, false, false))

/-! ## Recipe write path (api/serializers.py RecipeWriteSerializer) -/

/-- The validated payload reaching `RecipeWriteSerializer.validate`.  A field
absent from the request (allowed on PATCH, where partial=True drops the
required checks) is `none`; `data.get(key)` then returns Python None.
An ingredient line is (ingredient id, amount); the id was already resolved
by PrimaryKeyRelatedField, and the amount is a bare IntegerField with no
min_value bound. -/
structure WritePayload where
  name : Option String
  text : Option String
  image : Option String
  cookingTime : Option Int
  ingredients : Option (List (Nat × Int))
  tags : Option (List Nat)
deriving DecidableEq

inductive VerdictV
  | ok
  | fieldError (field : String)
  | typeError
deriving DecidableEq

/-- `RecipeWriteSerializer.validate`, in source order: empty/missing
ingredients, duplicate ingredient ids, empty/missing tags, duplicate tags,
then `cooking_time <= 0`.  When cooking_time is absent, `data.get` yields
None and the Python 3 comparison `None <= 0` raises `TypeError` (modelled
by the `typeError` verdict).  No check on the ingredient amounts exists. -/
def validateRecipe (p : WritePayload) : VerdictV :=
  match p.ingredients with
  | none => .fieldError ("ingredients")
  | some [] => .fieldError ("ingredients")
  | some ings =>
    if (ings.map (fun li => li.1)).Nodup then
      match p.tags with
      | none => .fieldError ("tags")
      | some [] => .fieldError ("tags")
      | some tags =>
        if tags.Nodup then
          match p.cookingTime with
          | none => .typeError
          | some t => if t ≤ 0 then .fieldError ("cooking_time") else .ok
        else .fieldError ("tags")
    else .fieldError ("ingredients")

/-- `RecipeIngredient.objects.bulk_create`: a single INSERT statement, so it
is atomic by itself.  It bypasses model validators; the database enforces
only the `PositiveIntegerField` check (amount >= 0) and the
unique_recipe_ingredient constraint. -/
def bulkCreateLines (db : Db) (rid : Nat) (ings : List (Nat × Int)) :
    Except Unit Db :=
  let rows := ings.map (fun li => LineRow.mk (some rid) (some li.1) li.2)
  if rows.all (fun l => decide (0 ≤ l.amount)) &&
      decide ((rows.map (fun l => (l.recipe, l.ingredient))).Nodup) &&
      rows.all (fun l => !(db.lines.any (fun q =>
        q.recipe == l.recipe && q.ingredient == l.ingredient))) then
    .ok { db with lines := db.lines ++ rows }
  else .error ()

def freshRecipeId (db : Db) : Nat :=
  db.recipes.foldl (fun m r => max m r.id) 0 + 1

/-- `RecipeWriteSerializer.create` plus `perform_create`: validate, insert
the Recipe row (author taken from the request; `Recipe.save` assigns the
short link), set the tag associations, then bulk-create the lines.  No
`transaction.atomic` (and no ATOMIC_REQUESTS) appears anywhere in the
source, so each step commits on its own: when the bulk insert fails, the
already-inserted recipe row and tag rows remain. -/
def createRecipe (db : Db) (authorId : Nat) (authorStr : String)
    (p : WritePayload) : Db × Option String :=
  match validateRecipe p with
  | .fieldError f => (db, some ("ValidationError " ++ f))
  | .typeError => (db, some ("TypeError"))
  | .ok =>
    let rid := freshRecipeId db
    let row : RecipeRow :=
      { id := rid, authorId := authorId, authorStr := authorStr,
        name := (p.name).getD (""), text := (p.text).getD (""),
        image := (p.image).getD (""),
        cookingTime := (p.cookingTime).getD 0, shortLink := none }
    match recipeSave db row with
    | .error _ => (db, some ("ValidationError short_link"))
    | .ok db1 =>
      let db2 := { db1 with recipeTags :=
        db1.recipeTags ++ ((p.tags).getD []).map (fun t => (rid, t)) }
      match bulkCreateLines db2 rid ((p.ingredients).getD []) with
      | .ok db3 => (db3, none)
      | .error _ => (db2, some ("IntegrityError"))

/-- `RecipeWriteSerializer.update` guarded by `validate`: on the ok path
both lists are present and non-empty, so the existing lines of the recipe
are cleared and recreated and the tag set is replaced; the scalar fields are
then saved by `super().update`.  Validation failure (including the
TypeError crash) happens before any write. -/
def updateRecipe (db : Db) (rid : Nat) (p : WritePayload) :
    Db × Option String :=
  match validateRecipe p with
  | .fieldError f => (db, some ("ValidationError " ++ f))
  | .typeError => (db, some ("TypeError"))
  | .ok =>
    match db.recipes.find? (fun q => q.id == rid) with
    | none => (db, some ("NotFound"))
    | some r =>
      let cleared :=
        { db with lines := db.lines.filter (fun l => !(l.recipe == some rid)) }
      match bulkCreateLines cleared rid ((p.ingredients).getD []) with
      | .error _ => (cleared, some ("IntegrityError"))
      | .ok db1 =>
        let keptTags : List (Nat × Nat) :=
          db1.recipeTags.filter (fun t => !(t.1 == rid))
        let newTags : List (Nat × Nat) :=
          ((p.tags).getD []).map (fun t => (rid, t))
        let db2 := { db1 with recipeTags := keptTags ++ newTags }
        let r2 := { r with name := (p.name).getD r.name,
                           text := (p.text).getD r.text,
                           image := (p.image).getD r.image,
                           cookingTime := (p.cookingTime).getD r.cookingTime }
        ({ db2 with recipes :=
            db2.recipes.map (fun q => if q.id == rid then r2 else q) }, none)

/-- Recipe deletion with the `on_delete` behaviour each foreign key
declares: Favorite/ShoppingCart rows CASCADE, the tag m2m rows are removed,
but `RecipeIngredient.recipe` is `SET_NULL` — the line rows are kept with a
null recipe reference. -/
def deleteRecipe (db : Db) (rid : Nat) : Db :=
  { db with
      recipes := db.recipes.filter (fun r => !(r.id == rid)),
      lines := db.lines.map (fun l =>
        if l.recipe == some rid then { l with recipe := none } else l),
      favorites := db.favorites.filter (fun pq => !(pq.2 == rid)),
      cart := db.cart.filter (fun pq => !(pq.2 == rid)),
      recipeTags := db.recipeTags.filter (fun t => !(t.1 == rid)) }

/-! ## Claim C10 -/

def p10 : WritePayload :=
  { name := none, text := none, image := none, cookingTime := none,
    ingredients := some [(1, 2)], tags := some [1] }

/-! ## Claims C4 and C5 -/

/-- A catalog holding the single referenced ingredient (resolved earlier by
PrimaryKeyRelatedField). -/
def cIngDb : Db := { emptyDb with ingredients := [⟨1, "flour", "g"⟩] }

def p4 : WritePayload :=
  { name := some ("Cake"), text := some ("t"), image := some ("i"),
    cookingTime := some 10, ingredients := some [(1, -1)], tags := some [1] }

def c4Res : Db × Option String := createRecipe cIngDb 7 ("Ann Lee") p4

def p5 : WritePayload :=
  { name := some ("Cake"), text := some ("t"), image := some ("i"),
    cookingTime := some 10, ingredients := some [(1, 0)], tags := some [1] }

def c5Res : Db × Option String := createRecipe cIngDb 7 ("Ann Lee") p5

/-! ## Claim C6 -/

def c6r : RecipeRow :=
  { id := 1, authorId := 7, authorStr := "Ann Lee", name := "Soup",
    text := "t", image := "i", cookingTime := 5,
    shortLink := some ("aaaa1111") }

def c6Db : Db :=
  { emptyDb with
      recipes := [c6r],
      lines := [⟨some 1, some 1, 2⟩],
      ingredients := [⟨1, "flour", "g"⟩] }

def p8 : WritePayload :=
  { name := none, text := none, image := none, cookingTime := some 3,
    ingredients := none, tags := some [1] }

/-! ## Shopping-cart download (RecipeViewSet.download_shopping_cart,
api/views.py 311-347, serializer DownloadShoppingCart)

The view filters the ShoppingCart rows of the requester, restricts to the
recipes they reference, joins the RecipeIngredient rows of those recipes to
the ingredient catalog, groups by (ingredient name, measurement unit)
summing the amounts (SQL GROUP BY with Sum), orders ascending by name, and
renders each group as a text line.  The serializer declares total_amount as
a FloatField, so the integral SQL sum is converted to a Python float before
the f-string renders it.
-/

def cartRecipeIds (db : Db) (u : Nat) : List Nat :=
  (db.cart.filter (fun pq => pq.1 == u)).map (fun pq => pq.2)

/-- The joined rows (ingredient name, measurement unit, amount), one per
RecipeIngredient row whose recipe is in the cart of the user.  Foreign keys
resolve through the join; rows with a null reference do not contribute a
catalog entry. -/
def joinedRows (db : Db) (u : Nat) : List (String × String × Int) :=
  db.lines.filterMap (fun l =>
    match l.recipe, l.ingredient with
    | some rid, some iid =>
      if (cartRecipeIds db u).contains rid &&
          db.recipes.any (fun r => r.id == rid) then
        match db.ingredients.find? (fun i => i.id == iid) with
        | some ing => some (ing.name, ing.measurement_unit, l.amount)
        | none => none
      else none
    | _, _ => none)

def keyOf (row : String × String × Int) : String × String :=
  (row.1, row.2.1)

/-- SQL Sum of the amounts of all rows in a group. -/
def keySum (rows : List (String × String × Int)) (k : String × String) : Int :=
  ((rows.filter (fun r => decide (keyOf r = k))).map (fun r => r.2.2)).sum

/-- The distinct (name, measurement unit) group keys. -/
def groupKeys (rows : List (String × String × Int)) : List (String × String) :=
  (rows.map keyOf).dedup

def aggRow (rows : List (String × String × Int)) (k : String × String) :
    String × String × Int :=
  (k.1, k.2, keySum rows k)

instance : DecidableRel (fun (a b : String × String × Int) => a.1 ≤ b.1) :=
  fun a b => inferInstanceAs (Decidable (a.1 ≤ b.1))

/-- The grouped, summed and name-ordered aggregation (`.values(...)
.annotate(total_amount=Sum(..)).order_by('name')`; the order among equal
names is not fixed by SQL, the model keeps first-appearance order there). -/
def aggregate (db : Db) (u : Nat) : List (String × String × Int) :=
  List.insertionSort (fun a b => a.1 ≤ b.1)
    ((groupKeys (joinedRows db u)).map (aggRow (joinedRows db u)))

/-- The DownloadShoppingCart serializer declares total_amount as a
FloatField, so the integral sum is converted with Python float() and the
f-string prints it via str().  For an integer of magnitude below 2^53 (the
scope of every concrete state here, where float conversion is exact) that
rendering is the decimal digits followed by a trailing .0 — e.g. 5 prints
as 5.0, never as 5. -/
def pyFloatRepr (n : Int) : String :=
  toString n ++ ".0"

/-- One output line of the manifest. -/
def renderLine (row : String × String × Int) : String :=
  "- " ++ row.1 ++ " " ++ pyFloatRepr row.2.2 ++ " " ++ row.2.1

/-- The text body of the downloaded file: the rendered lines joined with
newlines. -/
def download_shopping_cart (db : Db) (u : Nat) : String :=
  String.intercalate ("\n") ((aggregate db u).map renderLine)

def c1r1 : RecipeRow :=
  { id := 1, authorId := 7, authorStr := "Ann Lee", name := "SoupA",
    text := "t", image := "i", cookingTime := 5,
    shortLink := some ("aaaa0001") }

def c1r2 : RecipeRow :=
  { id := 2, authorId := 7, authorStr := "Ann Lee", name := "SoupB",
    text := "t", image := "i", cookingTime := 5,
    shortLink := some ("aaaa0002") }

/-- Cart with two recipes, each holding a flour line (2 g and 3 g). -/
def c1Db : Db :=
  { emptyDb with
      recipes := [c1r1, c1r2],
      lines := [⟨some 1, some 1, 2⟩, ⟨some 2, some 1, 3⟩],
      ingredients := [⟨1, "flour", "g"⟩],
      cart := [(1, 1), (1, 2)] }

example : md5hex ("") = "d41d8cd98f00b204e9800998ecf8427e" := by rfl

example : md5hex ("abc") = "900150983cd24fb0d6963f7d28e17f72" := by rfl

example : md5hex ("Ann Lee-Soup") = "bdfc49973c33cdc31de10b744818184e" := by
  rfl

/-! ## Supporting lemmas about the digest shape -/

theorem toLEBytes_length (k : Nat) : ∀ n, (toLEBytes k n).length = k := by
  induction k with
  | zero => intro n; rfl
  | succ k ih => intro n; simp [toLEBytes, ih]

theorem toLEBytes_lt (k : Nat) : ∀ n, ∀ b ∈ toLEBytes k n, b < 256 := by
  induction k with
  | zero => intro n b hb; simp [toLEBytes] at hb
  | succ k ih =>
    intro n b hb
    simp only [toLEBytes, List.mem_cons] at hb
    rcases hb with hb | hb
    · subst hb; exact Nat.mod_lt _ (by norm_num)
    · exact ih _ b hb

theorem md5Bytes_length (m : List Nat) : (md5Bytes m).length = 16 := by
  simp [md5Bytes, toLEBytes_length]

theorem md5Bytes_lt (m : List Nat) : ∀ b ∈ md5Bytes m, b < 256 := by
  intro b hb
  simp only [md5Bytes, List.mem_append] at hb
  rcases hb with ((hb | hb) | hb) | hb <;> exact toLEBytes_lt _ _ b hb

theorem hexChars_length (l : List Nat) : (hexChars l).length = 2 * l.length := by
  induction l with
  | nil => rfl
  | cons b bs ih => simp [hexChars, ih]; omega

theorem isHexChar_hexChar : ∀ n, n < 16 → isHexChar (hexChar n) = true := by
  decide

theorem hexChars_hex (l : List Nat) (h : ∀ b ∈ l, b < 256) :
    ∀ c ∈ hexChars l, isHexChar c = true := by
  induction l with
  | nil => intro c hc; simp [hexChars] at hc
  | cons b bs ih =>
    intro c hc
    simp only [hexChars, List.mem_cons] at hc
    have hb : b < 256 := h b (List.mem_cons_self b bs)
    rcases hc with hc | hc | hc
    · subst hc
      exact isHexChar_hexChar _ (Nat.div_lt_of_lt_mul (by omega))
    · subst hc
      exact isHexChar_hexChar _ (Nat.mod_lt _ (by norm_num))
    · exact ih (fun x hx => h x (List.mem_cons_of_mem b hx)) c hc

theorem md5hex_length (s : String) : (md5hex s).length = 32 := by
  show (md5hex s).data.length = 32
  simp [md5hex, hexChars_length, md5Bytes_length]

theorem md5hex_hex (s : String) : isHexStr (md5hex s) = true := by
  simp only [isHexStr, md5hex, List.all_eq_true]
  exact hexChars_hex _ (md5Bytes_lt _)

/-- Claim C3 (code bug): the claim says a uniqueness violation at persist
time triggers a retry with a perturbed input, so two distinct recipes never
share a short_link.  In the code, `short_link` carries no uniqueness
constraint (no `unique=True` in models.py), so no `IntegrityError` is ever
raised for a colliding code, and the retry recomputes the identical
`md5(author-name)` hash.  Concretely: two distinct recipes (ids 1 and 2)
with the same author string and name both persist successfully and both
receive the same code, the real MD5 prefix of the string Ann Lee-Soup. -/
theorem c3_two_recipes_same_short_link :
    c3Saved = .ok c3Db ∧
    c3Db.recipes.map (fun r => (r.id, r.shortLink)) =
      [(1, some ("bdfc4997")), (2, some ("bdfc4997"))] ∧
    c3r1.id ≠ c3r2.id := by
  refine ⟨rfl, rfl, by decide⟩

/-! ## Claim C7 -/

/-- Claim C7 (confirmed): once `short_link` is assigned (a non-empty stored
value), any `get-link` call returns the stored value unchanged and does not
touch the database, so calling it twice returns the same value both times. -/
theorem c7_get_link_idempotent (db : Db) (rid : Nat) (r : RecipeRow)
    (s : String)
    (hfind : db.recipes.find? (fun q => q.id == rid) = some r)
    (hlink : r.shortLink = some s) (hs : s ≠ "") :
    getLink db rid = (.ok s, db) ∧
    (getLink (getLink db rid).2 rid).1 = .ok s := by
  have hdata : s.data ≠ [] := by
    intro h0
    apply hs
    cases s with
    | mk l => simp only at h0; subst h0; rfl
  have hfalsy : isFalsyLink (some s) = false := by
    simp [isFalsyLink, List.isEmpty_iff, hdata]
  have h1 : getLink db rid = (.ok s, db) := by
    simp [getLink, hfind, hlink, hfalsy]
  exact ⟨h1, by rw [h1]; simp [h1]⟩

theorem c7_get_link_idempotent_witness :
    getLink w7db 1 = (.ok ("ab12cd34"), w7db) ∧
    (getLink (getLink w7db 1).2 1).1 = .ok ("ab12cd34") :=
  c7_get_link_idempotent w7db 1 w7r ("ab12cd34") (by rfl) (by rfl) (by decide)

/-! ## Claim C9 -/

/-- Claim C9 counterexample: the claim asserts that resolving the exact
stored code of any recipe with a generated short link redirects to that
recipe's detail location.  In the database produced by the two saves of C3,
recipe 1 has the stored code bdfc4997, yet resolving that code does not
redirect to recipe 1: the lookup matches two rows and raises
`MultipleObjectsReturned` (the resolver catches only `ObjectDoesNotExist`). -/
theorem c9_round_trip_counterexample :
    c3Db.recipes.map (fun r => (r.id, r.shortLink)) =
      [(1, some ("bdfc4997")), (2, some ("bdfc4997"))] ∧
    resolveShortLink c3Db ("bdfc4997") = .multipleObjectsReturned ∧
    resolveShortLink c3Db ("bdfc4997") ≠
      ResolveRes.redirect ("api/recipes/1") := by
  refine ⟨rfl, rfl, by decide⟩

/-- Claim C9 as amended: every generated short link is a bare 8-character
hexadecimal code (not an absolute URL), and resolving a code that is stored
by exactly one recipe redirects to that recipe's detail location
api/recipes/id.  (As generated codes are not unique — see C3 — the
round trip holds only when the code identifies a single recipe.) -/
theorem c9_short_link_round_trip_amended :
    (∀ author name : String, (genShortLink author name).length = 8 ∧
      isHexStr (genShortLink author name) = true) ∧
    (∀ (db : Db) (code : String) (r : RecipeRow),
      db.recipes.filter (fun q => q.shortLink == some code) = [r] →
      resolveShortLink db code = .redirect ("api/recipes/" ++ toString r.id)) := by
  constructor
  · intro author name
    constructor
    · show (genShortLink author name).data.length = 8
      have h32 : (md5hex (author ++ "-" ++ name)).data.length = 32 :=
        md5hex_length (author ++ "-" ++ name)
      simp [genShortLink, List.length_take, h32]
    · have hall := md5hex_hex (author ++ "-" ++ name)
      simp only [isHexStr, List.all_eq_true] at hall ⊢
      intro c hc
      exact hall c (List.take_subset _ _ hc)
  · intro db code r hfilter
    simp [resolveShortLink, hfilter]

theorem c9_short_link_round_trip_amended_witness :
    resolveShortLink w9db ("ab12cd34") = .redirect ("api/recipes/7") ∧
    (genShortLink ("Ann Lee") ("Soup")).length = 8 :=
  ⟨c9_short_link_round_trip_amended.2 w9db ("ab12cd34") w9r (by rfl),
    (c9_short_link_round_trip_amended.1 ("Ann Lee") ("Soup")).1⟩

/-! ## Claim C2 -/

theorem any_pair_mem (l : List (Nat × Nat)) (u rid : Nat) :
    l.any (fun pq => pq.1 == u && pq.2 == rid) = true ↔ (u, rid) ∈ l := by
  simp only [List.any_eq_true, Bool.and_eq_true, beq_iff_eq]
  constructor
  · rintro ⟨⟨a, b⟩, hmem, h1, h2⟩
    simp only at h1 h2
    subst h1; subst h2
    exact hmem
  · intro h
    exact ⟨(u, rid), h, rfl, rfl⟩

/-- Claim C2 (confirmed): in list/detail reads, an anonymous requester gets
false for both flags regardless of relation rows; an authenticated user u
gets is_favorited (resp. is_in_shopping_cart) true exactly when a Favorite
(resp. ShoppingCart) row for (u, r) exists.  The queryset annotation path
agrees with the serializer methods on every recipe. -/
theorem c2_user_flags (db : Db) (u rid : Nat) :
    get_is_favorited db none rid = false ∧
    get_is_in_shopping_cart db none rid = false ∧
    (get_is_favorited db (some u) rid = true ↔ (u, rid) ∈ db.favorites) ∧
    (get_is_in_shopping_cart db (some u) rid = true ↔ (u, rid) ∈ db.cart) ∧
    with_user_annotations db (some u) = db.recipes.map (fun r =>
      (r, get_is_favorited db (some u) r.id,
        get_is_in_shopping_cart db (some u) r.id)) ∧
    with_user_annotations db none =
      db.recipes.map (fun r => (r, false, false)) := by
  refine ⟨rfl, rfl, ?_, ?_, rfl, rfl⟩
  · exact any_pair_mem db.favorites u rid
  · exact any_pair_mem db.cart u rid

/-- Claim C10 (code bug): a partial-update payload with valid, duplicate-free
ingredient and tag lists but no cooking_time makes `validate` evaluate the
Python expression None <= 0, which raises an unhandled TypeError instead of
terminating with acceptance or a field-scoped error; the update performs no
write. -/
theorem c10_missing_cooking_time_type_error :
    validateRecipe p10 = .typeError ∧
    updateRecipe emptyDb 1 p10 = (emptyDb, some ("TypeError")) := by
  exact ⟨rfl, rfl⟩

/-- Claim C4 (code bug): recipe create is not atomic.  The payload with
amount -1 passes `validate` (amounts are never checked there), the Recipe
row and its tag association are inserted, and then `bulk_create` fails on
the database check amount >= 0.  With no enclosing transaction, the orphaned
Recipe row and its tag row remain visible while no line exists. -/
theorem c4_create_not_atomic :
    validateRecipe p4 = .ok ∧
    c4Res.2 = some ("IntegrityError") ∧
    c4Res.1.recipes.map (fun r => r.name) = ["Cake"] ∧
    c4Res.1.recipeTags = [(1, 1)] ∧
    c4Res.1.lines = [] := by
  exact ⟨rfl, rfl, rfl, rfl, rfl⟩

/-- Claim C5 (code bug): an ingredient line with amount 0 (< 1) is NOT
rejected: the write serializer declares a bare IntegerField and `validate`
never looks at amounts, so the payload is accepted and the line is persisted
with amount 0 (`bulk_create` bypasses the model validator and the database
check only requires amount >= 0). -/
theorem c5_zero_amount_accepted :
    validateRecipe p5 = .ok ∧
    c5Res.2 = none ∧
    c5Res.1.lines.map (fun l => l.amount) = [0] := by
  exact ⟨rfl, rfl, rfl⟩

/-- Claim C6 (code bug): deleting a recipe does not delete its
RecipeIngredientLine rows.  `on_delete=SET_NULL` keeps every line, merely
nulling its recipe reference, so a surviving line references no existing
recipe; in general deletion never changes the number of line rows. -/
theorem c6_lines_survive_delete :
    (deleteRecipe c6Db 1).recipes = [] ∧
    (deleteRecipe c6Db 1).lines = [⟨none, some 1, 2⟩] ∧
    ∀ (db : Db) (rid : Nat),
      ((deleteRecipe db rid).lines).length = db.lines.length := by
  refine ⟨rfl, rfl, fun db rid => ?_⟩
  simp [deleteRecipe]

/-! ## Claim C8 -/

/-- Claim C8 (confirmed): every update payload, including a partial PATCH,
must carry a non-empty ingredient list and a non-empty tag list; omitting
(or emptying) either one makes `validate` raise a field-scoped error on
ingredients or tags, and the update returns with the database unchanged. -/
theorem c8_update_requires_lists (db : Db) (rid : Nat) (p : WritePayload)
    (h : p.ingredients = none ∨ p.ingredients = some [] ∨
      p.tags = none ∨ p.tags = some []) :
    (∃ f, validateRecipe p = .fieldError f ∧
      (f = "ingredients" ∨ f = "tags")) ∧
    (updateRecipe db rid p).1 = db ∧
    (updateRecipe db rid p).2.isSome = true := by
  have hv : ∃ f, validateRecipe p = .fieldError f ∧
      (f = "ingredients" ∨ f = "tags") := by
    have htag : p.tags = none ∨ p.tags = some [] →
        ∃ f, validateRecipe p = .fieldError f ∧
          (f = "ingredients" ∨ f = "tags") := by
      intro ht
      match hp : p.ingredients with
      | none => exact ⟨"ingredients", by simp [validateRecipe, hp], Or.inl rfl⟩
      | some [] =>
        exact ⟨"ingredients", by simp [validateRecipe, hp], Or.inl rfl⟩
      | some (x :: xs) =>
        by_cases hd : ((x :: xs).map (fun li => li.1)).Nodup
        · refine ⟨"tags", ?_, Or.inr rfl⟩
          simp only [validateRecipe, hp]
          rw [if_pos hd]
          rcases ht with ht | ht <;> rw [ht]
        · refine ⟨"ingredients", ?_, Or.inl rfl⟩
          simp only [validateRecipe, hp]
          rw [if_neg hd]
    rcases h with h | h | h | h
    · exact ⟨"ingredients", by simp [validateRecipe, h], Or.inl rfl⟩
    · exact ⟨"ingredients", by simp [validateRecipe, h], Or.inl rfl⟩
    · exact htag (Or.inl h)
    · exact htag (Or.inr h)
  obtain ⟨f, hf, hor⟩ := hv
  refine ⟨⟨f, hf, hor⟩, ?_, ?_⟩ <;> simp [updateRecipe, hf]

theorem c8_update_requires_lists_witness :
    (updateRecipe emptyDb 1 p8).1 = emptyDb ∧
    (updateRecipe emptyDb 1 p8).2.isSome = true ∧
    (∃ f, validateRecipe p8 = .fieldError f ∧
      (f = "ingredients" ∨ f = "tags")) :=
  have h := c8_update_requires_lists emptyDb 1 p8 (Or.inl rfl)
  ⟨h.2.1, h.2.2, h.1⟩

/-- Claim C1 counterexample: for the cart holding flour 2 g and flour 3 g,
the downloaded body is the single line rendering the FloatField value, so
it reads dash flour 5.0 g — not dash flour 5 g as the claim states. -/
theorem c1_float_format_counterexample :
    download_shopping_cart c1Db 1 = "- flour 5.0 g" ∧
    download_shopping_cart c1Db 1 ≠ "- flour 5 g" := by
  refine ⟨by rfl, by decide⟩

/-- Claim C1 as amended: for every user, the download joins the line rows of
exactly the cart recipes, groups them by (ingredient name, measurement
unit), sums the amounts across all contributing lines, sorts ascending by
ingredient name, and renders one line per distinct pair in the form
dash name sum unit — with the summed amount rendered through the float
conversion of the FloatField (an integral sum therefore carries a trailing
.0).  An empty join yields an empty body. -/
theorem c1_download_shopping_cart_amended (db : Db) (u : Nat) :
    List.Sorted (fun a b => a.1 ≤ b.1) (aggregate db u) ∧
    ((aggregate db u).map keyOf).Nodup ∧
    (∀ (n m : String) (s : Int), (n, m, s) ∈ aggregate db u ↔
      ((n, m) ∈ (joinedRows db u).map keyOf ∧
        s = keySum (joinedRows db u) (n, m))) ∧
    download_shopping_cart db u =
      String.intercalate ("\n") ((aggregate db u).map (fun row =>
        "- " ++ row.1 ++ " " ++ pyFloatRepr row.2.2 ++ " " ++ row.2.1)) ∧
    (joinedRows db u = [] → download_shopping_cart db u = "") := by
  haveI hTot : IsTotal (String × String × Int) (fun a b => a.1 ≤ b.1) :=
    ⟨fun a b => le_total a.1 b.1⟩
  haveI hTr : IsTrans (String × String × Int) (fun a b => a.1 ≤ b.1) :=
    ⟨fun a b c h1 h2 => le_trans h1 h2⟩
  have hperm : List.Perm (aggregate db u)
      ((groupKeys (joinedRows db u)).map (aggRow (joinedRows db u))) :=
    List.perm_insertionSort _ _
  refine ⟨?_, ?_, ?_, ?_, ?_⟩
  · exact List.sorted_insertionSort _ _
  · have hmk : ((groupKeys (joinedRows db u)).map
        (aggRow (joinedRows db u))).map keyOf = groupKeys (joinedRows db u) := by
      rw [List.map_map]
      have hco : (keyOf ∘ aggRow (joinedRows db u)) = id := by
        funext k
        simp [keyOf, aggRow]
      rw [hco, List.map_id]
    have h3 : List.Perm ((aggregate db u).map keyOf)
        (groupKeys (joinedRows db u)) :=
      hmk ▸ hperm.map keyOf
    exact h3.nodup_iff.mpr (List.nodup_dedup _)
  · intro n m s
    rw [hperm.mem_iff]
    constructor
    · intro hmem
      rcases List.mem_map.1 hmem with ⟨k, hk, hfk⟩
      have hks : k.1 = n ∧ k.2 = m ∧ keySum (joinedRows db u) k = s := by
        simpa [aggRow, Prod.ext_iff] using hfk
      have hkeq : k = (n, m) := by
        cases k
        simp only at hks ⊢
        exact Prod.ext hks.1 hks.2.1
      subst hkeq
      refine ⟨List.mem_dedup.1 hk, hks.2.2.symm⟩
    · rintro ⟨hmem, hsum⟩
      refine List.mem_map.2 ⟨(n, m), List.mem_dedup.2 hmem, ?_⟩
      simp [aggRow, hsum]
  · rfl
  · intro h
    simp only [download_shopping_cart, aggregate, groupKeys, h]
    rfl

theorem c1_download_shopping_cart_amended_witness :
    download_shopping_cart emptyDb 3 = "" :=
  (c1_download_shopping_cart_amended emptyDb 3).2.2.2.2 (by rfl)
